import Mathlib

/-
Verification of the wheel-strategy trading bot.

Shallow embedding of:
- models.py   : WebhookSignal field validators and the validated-signal model;
- main.py     : the webhook order pipeline (record creation, broker leg,
                degraded-success response protocol);
- wheel_controller.py : the strategy state machine, expiry selection and the
                approval/submission loop;
- the OptionSymbolEncoder of the specification (not present in the src files).

Python strings are modelled as lists of Unicode codepoints; Python floats for
money amounts are modelled as exact rationals, with round(v, 2) modelled as
round-half-even on the exact value.  Timestamps are abstracted to set / not-set.
-/

/-- A Python string, as its list of Unicode codepoints. -/
abbrev PyStr := List Nat

/-- Codepoints of a Lean string literal (used to write Python string constants). -/
def strLit (s : String) : PyStr := s.data.map Char.toNat

/-- Python str.lower on one codepoint.  The payloads the validators accept are
ASCII-only, so the ASCII case map is the relevant fragment. -/
def lowerCh (c : Nat) : Nat := if 65 ≤ c ∧ c ≤ 90 then c + 32 else c

/-- Python str.upper on one codepoint (ASCII fragment, see lowerCh). -/
def upperCh (c : Nat) : Nat := if 97 ≤ c ∧ c ≤ 122 then c - 32 else c

/-- Python s.lower(). -/
def pyLower (s : PyStr) : PyStr := s.map lowerCh

/-- Python s.upper(). -/
def pyUpper (s : PyStr) : PyStr := s.map upperCh

/-- One codepoint of the character class A-Za-z. -/
def isAsciiAlpha (c : Nat) : Bool := (65 ≤ c && c ≤ 90) || (97 ≤ c && c ≤ 122)

/-- Python re.match of the anchored pattern of letters of length 1 to 10
used by validate_symbol in models.py. -/
def matchesSymbolRe (s : PyStr) : Bool :=
  decide (1 ≤ s.length) && decide (s.length ≤ 10) && s.all isAsciiAlpha

/-- Round-half-even to an integer: the tie-breaking rule of Python round(). -/
def roundHalfEven (q : ℚ) : ℤ :=
  let f := ⌊q⌋
  let r := q - f
  if r < 1/2 then f else if 1/2 < r then f + 1 else if 2 ∣ f then f else f + 1

/-- Python round(v, 2) on the exact value. -/
def round2 (q : ℚ) : ℚ := (roundHalfEven (q * 100) : ℚ) / 100

/-- A Python datetime.date value. -/
structure PyDate where
  year : Nat
  month : Nat
  day : Nat
deriving DecidableEq

/-- Gregorian leap-year test. -/
def isLeap (y : Nat) : Bool := (y % 4 == 0 && y % 100 != 0) || y % 400 == 0

/-- Length of a month in the proleptic Gregorian calendar. -/
def daysInMonth (y m : Nat) : Nat :=
  if m = 2 then (if isLeap y then 29 else 28)
  else if m = 4 ∨ m = 6 ∨ m = 9 ∨ m = 11 then 30 else 31

/-- Python date ordering, lexicographic on (year, month, day), as a ≤ test. -/
def dateLe (a b : PyDate) : Bool :=
  decide (a.year < b.year) ||
  (a.year == b.year && (decide (a.month < b.month) ||
    (a.month == b.month && decide (a.day ≤ b.day))))

/-- Value of one ASCII digit codepoint. -/
def digitVal (c : Nat) : Option Nat := if 48 ≤ c ∧ c ≤ 57 then some (c - 48) else none

/-- Model of datetime.strptime(v, the dashed year-month-day format).date():
the zero-padded ISO form of exactly ten codepoints naming a real calendar
date.  (CPython strptime also accepts unpadded one-digit fields; no claim
depends on that fringe, and the webhook producer always emits padded dates.) -/
def parseDateYMD (s : PyStr) : Option PyDate :=
  match s with
  | [y1, y2, y3, y4, h1, m1, m2, h2, d1, d2] =>
    if h1 = 45 ∧ h2 = 45 then
      match digitVal y1, digitVal y2, digitVal y3, digitVal y4,
            digitVal m1, digitVal m2, digitVal d1, digitVal d2 with
      | some a, some b, some c, some d, some e, some f, some g, some i =>
        let y := 1000 * a + 100 * b + 10 * c + d
        let m := 10 * e + f
        let dd := 10 * g + i
        if 1 ≤ y ∧ 1 ≤ m ∧ m ≤ 12 ∧ 1 ≤ dd ∧ dd ≤ daysInMonth y m then
          some ⟨y, m, dd⟩
        else none
      | _, _, _, _, _, _, _, _ => none
    else none
  | _ => none

/-- The validation-failure taxonomy of the specification (models.py raises
ValueError with a message for each of these). -/
inductive VErr where
  | InvalidAction
  | InvalidSymbol
  | InvalidStrike
  | InvalidExpiryFormat
  | ExpiryNotInFuture
  | InvalidPremium
  | InvalidQuantity
deriving DecidableEq

/-- models.py validate_action: the lowercased action must be one of the two
allowed actions; the lowercased form is returned. -/
def validate_action (v : PyStr) : Except VErr PyStr :=
  if pyLower v = strLit (r"sell_put") ∨ pyLower v = strLit (r"sell_call") then
    .ok (pyLower v)
  else .error .InvalidAction

/-- models.py validate_symbol: the symbol must match the letters-only pattern
of length 1 to 10; the uppercased form is returned. -/
def validate_symbol (v : PyStr) : Except VErr PyStr :=
  if matchesSymbolRe v then .ok (pyUpper v) else .error .InvalidSymbol

/-- models.py validate_expiry: the string must parse as a dashed ISO date and
be strictly after today; the string is returned unchanged. -/
def validate_expiry (today : PyDate) (v : PyStr) : Except VErr PyStr :=
  match parseDateYMD v with
  | none => .error .InvalidExpiryFormat
  | some d => if dateLe d today then .error .ExpiryNotInFuture else .ok v

/-- models.py validate_strike: positive, at most 10000, rounded to 2 places. -/
def validate_strike (v : ℚ) : Except VErr ℚ :=
  if v ≤ 0 then .error .InvalidStrike
  else if v > 10000 then .error .InvalidStrike
  else .ok (round2 v)

/-- models.py validate_premium: positive, at most 1000, rounded to 2 places. -/
def validate_premium (v : ℚ) : Except VErr ℚ :=
  if v ≤ 0 then .error .InvalidPremium
  else if v > 1000 then .error .InvalidPremium
  else .ok (round2 v)

/-- The pydantic quantity field: optional, default 1, must be positive. -/
def validate_quantity (v : Option Int) : Except VErr Int :=
  match v with
  | none => .ok 1
  | some q => if q > 0 then .ok q else .error .InvalidQuantity

/-- The raw webhook payload at the parsed-field boundary. -/
structure RawSignal where
  action : PyStr
  symbol : PyStr
  strike : ℚ
  expiry : PyStr
  premium : ℚ
  quantity : Option Int
deriving DecidableEq

/-- The validated, normalized WebhookSignal of models.py. -/
structure WebhookSignal where
  action : PyStr
  symbol : PyStr
  strike : ℚ
  expiry : PyStr
  premium : ℚ
  quantity : Int
deriving DecidableEq

/-- pydantic validation of a WebhookSignal: the field validators run in field
declaration order and the first failure rejects the payload (fail-fast, as
permitted by the specification). -/
def validateWebhookSignal (today : PyDate) (r : RawSignal) : Except VErr WebhookSignal :=
  match validate_action r.action with
  | .error e => .error e
  | .ok a =>
    match validate_symbol r.symbol with
    | .error e => .error e
    | .ok s =>
      match validate_strike r.strike with
      | .error e => .error e
      | .ok k =>
        match validate_expiry today r.expiry with
        | .error e => .error e
        | .ok ex =>
          match validate_premium r.premium with
          | .error e => .error e
          | .ok p =>
            match validate_quantity r.quantity with
            | .error e => .error e
            | .ok q => .ok ⟨a, s, k, ex, p, q⟩

/-- The raw payload whose parsed fields are those of an already-validated
signal (the idempotence law of the specification re-submits this form). -/
def rawForm (s : WebhookSignal) : RawSignal :=
  ⟨s.action, s.symbol, s.strike, s.expiry, s.premium, some s.quantity⟩

/-- A SignalRecord row of the trading_signals table (main.py / models.py
TradingSignal).  created_at / processed_at timestamps are abstracted to
set / not-set; the store itself is the list of committed rows. -/
structure TradingSignal where
  id : Nat
  action : PyStr
  symbol : PyStr
  strike : ℚ
  expiry : PyStr
  premium : ℚ
  quantity : Int
  status : String
  alpaca_order_id : Option PyStr
  processed_at : Option Unit
  error_message : Option String
deriving DecidableEq

/-- The row created by process_webhook the moment a signal passes validation. -/
def TradingSignal.create (id : Nat) (s : WebhookSignal) : TradingSignal :=
  ⟨id, s.action, s.symbol, s.strike, s.expiry, s.premium, s.quantity,
   (r"pending"), none, none, none⟩

/-- The order_details dict built by place_options_order (the constant side,
order_type and time_in_force entries carry no information and are elided). -/
structure OrderDetails where
  symbol : PyStr
  option_type : String
  strike : ℚ
  expiry : PyStr
  premium : ℚ
deriving DecidableEq

/-- The dict a brokerage call returns: an optional error entry and an optional
order_details entry (main.py reads exactly these two keys). -/
structure AlpacaResult where
  error : Option String
  order_details : Option OrderDetails
deriving DecidableEq

/-- Outcome of awaiting the brokerage capability inside process_sell_put /
process_sell_call: per the capability contract the call either raises an
exception carrying a message or returns a result dict. -/
inductive BrokerCall where
  | raises (msg : String)
  | returns (res : AlpacaResult)
deriving DecidableEq

/-- main.py place_options_order as shipped: never raises to its caller; with
no client it returns an error dict, otherwise it logs a simulated order and
returns a dict with order_details. -/
def place_options_order (hasClient : Bool) (signal : WebhookSignal)
    (option_type : String) : AlpacaResult :=
  if !hasClient then ⟨some (r"Alpaca client not initialized"), none⟩
  else ⟨none, some ⟨signal.symbol, option_type, signal.strike, signal.expiry, signal.premium⟩⟩

/-- The dict process_sell_put / process_sell_call return to process_webhook. -/
structure SellResult where
  action : String
  symbol : PyStr
  strike : ℚ
  expiry : PyStr
  premium : ℚ
  alpaca_order : Option AlpacaResult
deriving DecidableEq

/-- main.py process_sell_put, lines 137-170, parameterized by the outcome of
awaiting the brokerage call.  With a client: a raised exception sets status
error and error_message; a returned dict sets status processed, sets
processed_at, and copies the order_details symbol into alpaca_order_id when
that key is present (a dict holding order_details is nonempty, hence truthy).
Without a client: status no_broker with the fixed message.  The record is then
committed; both the committed row and the returned dict are produced. -/
def process_sell_put (hasClient : Bool) (call : BrokerCall)
    (signal : WebhookSignal) (db_signal : TradingSignal) :
    TradingSignal × SellResult :=
  let committed :=
    if hasClient then
      match call with
      | .returns res =>
        let r0 := { db_signal with status := (r"processed"), processed_at := some () }
        match res.order_details with
        | some od => { r0 with alpaca_order_id := some od.symbol }
        | none => r0
      | .raises msg => { db_signal with status := (r"error"), error_message := some msg }
    else
      { db_signal with status := (r"no_broker"),
                       error_message := some (r"Alpaca client not available") }
  let alpaca_result : Option AlpacaResult :=
    if hasClient then
      match call with
      | .returns res => some res
      | .raises msg => some ⟨some msg, none⟩
    else none
  (committed, ⟨(r"sell_put"), signal.symbol, signal.strike, signal.expiry,
               signal.premium, alpaca_result⟩)

/-- main.py process_sell_call, lines 172-205: identical record protocol to
process_sell_put, differing only in the action label of the returned dict. -/
def process_sell_call (hasClient : Bool) (call : BrokerCall)
    (signal : WebhookSignal) (db_signal : TradingSignal) :
    TradingSignal × SellResult :=
  let committed :=
    if hasClient then
      match call with
      | .returns res =>
        let r0 := { db_signal with status := (r"processed"), processed_at := some () }
        match res.order_details with
        | some od => { r0 with alpaca_order_id := some od.symbol }
        | none => r0
      | .raises msg => { db_signal with status := (r"error"), error_message := some msg }
    else
      { db_signal with status := (r"no_broker"),
                       error_message := some (r"Alpaca client not available") }
  let alpaca_result : Option AlpacaResult :=
    if hasClient then
      match call with
      | .returns res => some res
      | .raises msg => some ⟨some msg, none⟩
    else none
  (committed, ⟨(r"sell_call"), signal.symbol, signal.strike, signal.expiry,
               signal.premium, alpaca_result⟩)

/-- What the webhook caller receives: a 422-equivalent rejection when pydantic
validation fails (the handler never runs), the HTTP-200 success envelope with
the record id and the handler result, or the 400 HTTPException of the explicit
action re-check (unreachable for validated signals). -/
inductive WebhookResponse where
  | unprocessable (e : VErr)
  | success (signal_id : Nat) (result : SellResult)
  | clientError (code : Nat)
deriving DecidableEq

/-- main.py process_webhook, lines 79-135: FastAPI validates the payload into
a WebhookSignal before the handler runs, so an invalid payload is rejected
with no database interaction.  A validated signal is first committed as a
pending row, the action is re-checked (dead code after pydantic), the matching
handler runs and commits its status update, and the success envelope is
returned.  The store is the committed row list; ids are assigned serially. -/
def process_webhook (today : PyDate) (hasClient : Bool) (call : BrokerCall)
    (raw : RawSignal) (db : List TradingSignal) :
    WebhookResponse × List TradingSignal :=
  match validateWebhookSignal today raw with
  | .error e => (.unprocessable e, db)
  | .ok signal =>
    let db_signal := TradingSignal.create (db.length + 1) signal
    if ¬(signal.action = strLit (r"sell_put") ∨ signal.action = strLit (r"sell_call")) then
      (.clientError 400, db ++ [db_signal])
    else
      let pr :=
        if signal.action = strLit (r"sell_put") then
          process_sell_put hasClient call signal db_signal
        else
          process_sell_call hasClient call signal db_signal
      (.success db_signal.id pr.2, db ++ [pr.1])

/-- Days before January 1 of a year in the proleptic Gregorian calendar
(matching Python date.toordinal, whose day 1 is January 1 of year 1). -/
def daysBeforeYear (y : Nat) : Nat :=
  365 * (y - 1) + (y - 1) / 4 - (y - 1) / 100 + (y - 1) / 400

/-- Days of a year strictly before the first day of month m. -/
def daysBeforeMonth (y m : Nat) : Nat :=
  (List.range' 1 (m - 1)).foldl (fun a k => a + daysInMonth y k) 0

/-- Python date.toordinal. -/
def toOrdinal (y m d : Nat) : Nat := daysBeforeYear y + daysBeforeMonth y m + d

/-- Python date.weekday: Monday is 0 and Sunday is 6; Friday is 4. -/
def weekday (y m d : Nat) : Nat := (toOrdinal y m d + 6) % 7

/-- wheel_controller.py next_expiry, lines 21-27: move to the following
calendar month (December rolls over to January of the next year) and pick the
first day in 15..21 falling on a Friday.  The Python list indexing that
would raise on an empty list is modelled by the Option of find?. -/
def next_expiry (today : PyDate) : Option PyDate :=
  let ym := if today.month < 12 then (today.year, today.month + 1)
            else (today.year + 1, 1)
  ((List.range' 15 7).find? (fun d => weekday ym.1 ym.2 d == 4)).map
    (fun d => ⟨ym.1, ym.2, d⟩)

/-- Codepoints of a number zero-padded to two digits (a Python 02d format). -/
def pad2 (n : Nat) : PyStr := [48 + n / 10 % 10, 48 + n % 10]

/-- The formatted expiry string next_expiry returns: year, month and day
joined by dashes, month and day zero-padded to two digits. -/
def fmtDate (d : PyDate) : PyStr :=
  strLit (toString d.year) ++ [45] ++ pad2 d.month ++ [45] ++ pad2 d.day

/-- The recommendation dict wheel_controller.py build_signal creates. -/
structure WheelSignal where
  action : PyStr
  symbol : PyStr
  strike : ℚ
  expiry : PyStr
  premium : ℚ
deriving DecidableEq

/-- The bot_state.json contents (wheel_controller.py load_state default shape):
a state label, a share count and the last emitted signal. -/
structure WheelState where
  state : String
  shares_held : Int
  last_action : Option WheelSignal
deriving DecidableEq

/-- wheel_controller.py build_signal, lines 29-49: cash recommends a new put,
assigned recommends a call, anything else recommends nothing.  The strike,
symbol and premium constants are the configured ones of the source. -/
def build_signal (today : PyDate) (state : WheelState) : Option WheelSignal :=
  if state.state = (r"cash") then
    (next_expiry today).map (fun e =>
      ⟨strLit (r"sell_put"), strLit (r"AAPL"), 180, fmtDate e, 3/2⟩)
  else if state.state = (r"assigned") then
    (next_expiry today).map (fun e =>
      ⟨strLit (r"sell_call"), strLit (r"AAPL"), 190, fmtDate e, 7/4⟩)
  else none

/-- Outcome of the HTTP post inside send_signal: the request either raises or
yields a status code and a response body (bodies abstracted to strings). -/
inductive HttpOutcome where
  | raises (msg : String)
  | responds (code : Nat) (body : String)
deriving DecidableEq

/-- wheel_controller.py send_signal, lines 51-56: a raised request exception
is caught and turned into a 500 with the error text as body. -/
def send_signal (http : HttpOutcome) : Nat × String :=
  match http with
  | .raises msg => (500, msg)
  | .responds code body => (code, body)

/-- The state update of the approved branch of the main block, lines 75-82:
the transition keyed on the signal action, then last_action set to the
signal.  It does not look at the submission outcome. -/
def applyApproved (state : WheelState) (signal : WheelSignal) : WheelState :=
  let s1 :=
    if signal.action = strLit (r"sell_put") then
      { state with state := (r"waiting_assignment") }
    else if signal.action = strLit (r"sell_call") then
      { state with state := (r"cash"), shares_held := 0 }
    else state
  { s1 with last_action := some signal }

/-- How one run of the wheel_controller.py main block ends. -/
inductive MainOutcome where
  | unknownState
  | notApproved
  | submitted (code : Nat) (body : String)
deriving DecidableEq

/-- wheel_controller.py main block, lines 59-85: load state, build the
recommendation (no recommendation exits with an error), gate on operator
approval, submit, apply the state update and save.  The second component is
the bot_state.json contents after the run (unchanged unless saved). -/
def runMain (today : PyDate) (st : WheelState) (approve : Bool)
    (http : HttpOutcome) : MainOutcome × WheelState :=
  match build_signal today st with
  | none => (.unknownState, st)
  | some signal =>
    if approve then
      let sr := send_signal http
      (.submitted sr.1 sr.2, applyApproved st signal)
    else (.notApproved, st)

/-- Modelled from the spec: the OptionSymbolEncoder of specification section
4.2 is not present in the src files (place_options_order submits a simulated
order from the raw fields and never builds the OCC-style instrument id; the
encoder lives in a source variant outside src).  Per the spec text: right code
P for a put and C for a call. -/
inductive OptRight where
  | P
  | C
deriving DecidableEq

/-- Modelled from the spec: the character of one decimal digit. -/
def digitCh (d : Nat) : Char := Char.ofNat (48 + d)

/-- Modelled from the spec: the strike field integer, strike times 1000
rounded to an integer (rounding mode documented as half-even, matching the
validator's Python-round convention). -/
def strikeMilli (strike : ℚ) : ℤ := roundHalfEven (strike * 1000)

/-- Modelled from the spec: the eight digits of the strike field,
zero-padded: digit j is the coefficient of the j-th power of ten. -/
def strikeDigits (n : Nat) : List Nat :=
  [n / 10000000 % 10, n / 1000000 % 10, n / 100000 % 10, n / 10000 % 10,
   n / 1000 % 10, n / 100 % 10, n / 10 % 10, n % 10]

/-- Value of a big-endian list of decimal digits (used to state that the
strike field reads back as the rounded strike). -/
def digitsVal (l : List Nat) : Nat := l.foldl (fun a d => 10 * a + d) 0

/-- Modelled from the spec: OptionSymbolEncoder encode, section 4.2.
Two-digit year, month and day of the expiry, the right code, and the strike
field of exactly eight digits, concatenated with no separators onto the
underlying symbol; a strike field that would not fit eight digits is rejected
as StrikeFieldOverflow instead of being truncated. -/
def encodeOption (symbol : String) (expiry : PyDate) (right : OptRight)
    (strike : ℚ) : Except String String :=
  let n := strikeMilli strike
  if n < 0 ∨ 100000000 ≤ n then .error (r"StrikeFieldOverflow")
  else
    .ok (symbol ++ String.mk
      ([digitCh (expiry.year % 100 / 10), digitCh (expiry.year % 10),
        digitCh (expiry.month / 10 % 10), digitCh (expiry.month % 10),
        digitCh (expiry.day / 10 % 10), digitCh (expiry.day % 10)] ++
       [if right = .P then Char.ofNat 80 else Char.ofNat 67] ++
       (strikeDigits n.toNat).map digitCh))

theorem roundHalfEven_intCast (n : ℤ) : roundHalfEven (n : ℚ) = n := by
  unfold roundHalfEven
  simp [Int.floor_intCast]

theorem roundHalfEven_cases (q : ℚ) :
    roundHalfEven q = ⌊q⌋ ∨ roundHalfEven q = ⌊q⌋ + 1 := by
  unfold roundHalfEven
  dsimp only
  split_ifs <;> simp

theorem roundHalfEven_eq_floor_of_lt_half (q : ℚ) (h : q - ⌊q⌋ < 1/2) :
    roundHalfEven q = ⌊q⌋ := by
  unfold roundHalfEven
  dsimp only
  rw [if_pos h]

theorem roundHalfEven_nonneg (q : ℚ) (h : 0 ≤ q) : 0 ≤ roundHalfEven q := by
  have hf : (0 : ℤ) ≤ ⌊q⌋ := Int.floor_nonneg.mpr h
  rcases roundHalfEven_cases q with h1 | h1 <;> omega

theorem roundHalfEven_le_intCast (q : ℚ) (n : ℤ) (h : q ≤ (n : ℚ)) :
    roundHalfEven q ≤ n := by
  have hf : ⌊q⌋ ≤ n := by
    have h2 := Int.floor_le_floor h
    rwa [Int.floor_intCast] at h2
  rcases roundHalfEven_cases q with h1 | h1
  · omega
  · rw [h1]
    by_contra hc
    push_neg at hc
    have hfe : ⌊q⌋ = n := by omega
    have hq : q - (⌊q⌋ : ℚ) < 1/2 := by
      rw [hfe]
      linarith
    rw [roundHalfEven_eq_floor_of_lt_half q hq] at h1
    omega

theorem round2_idem (q : ℚ) : round2 (round2 q) = round2 q := by
  unfold round2
  have h : ((roundHalfEven (q * 100) : ℚ) / 100) * 100 = (roundHalfEven (q * 100) : ℚ) := by
    field_simp
  rw [h, roundHalfEven_intCast]

theorem round2_le_intCast (q : ℚ) (n : ℤ) (h : q ≤ (n : ℚ)) : round2 q ≤ (n : ℚ) := by
  unfold round2
  have h1 : roundHalfEven (q * 100) ≤ n * 100 := by
    apply roundHalfEven_le_intCast
    push_cast
    linarith
  rw [div_le_iff₀ (by norm_num : (0:ℚ) < 100)]
  exact_mod_cast h1

theorem validate_action_ok (v a : PyStr) (h : validate_action v = .ok a) :
    a = pyLower v ∧ (a = strLit (r"sell_put") ∨ a = strLit (r"sell_call")) := by
  unfold validate_action at h
  split_ifs at h with hc
  rw [Except.ok.injEq] at h
  exact ⟨h.symm, h ▸ hc⟩

theorem validate_action_idem (v a : PyStr) (h : validate_action v = .ok a) :
    validate_action a = .ok a := by
  obtain ⟨he, hm⟩ := validate_action_ok v a h
  rcases hm with hm | hm <;>
  · subst hm
    rfl

theorem upperCh_fix (c : Nat) (h : isAsciiAlpha c = true) :
    isAsciiAlpha (upperCh c) = true ∧ upperCh (upperCh c) = upperCh c := by
  simp only [isAsciiAlpha, upperCh, Bool.or_eq_true, Bool.and_eq_true,
    decide_eq_true_eq] at h ⊢
  split_ifs <;> omega

theorem validate_symbol_ok (v s : PyStr) (h : validate_symbol v = .ok s) :
    s = pyUpper v ∧ matchesSymbolRe v = true := by
  unfold validate_symbol at h
  split_ifs at h with hc
  rw [Except.ok.injEq] at h
  exact ⟨h.symm, hc⟩

theorem validate_symbol_idem (v s : PyStr) (h : validate_symbol v = .ok s) :
    validate_symbol s = .ok s := by
  obtain ⟨he, hm⟩ := validate_symbol_ok v s h
  simp only [matchesSymbolRe, Bool.and_eq_true, decide_eq_true_eq,
    List.all_eq_true] at hm
  obtain ⟨⟨h1, h2⟩, h3⟩ := hm
  subst he
  have hre : matchesSymbolRe (pyUpper v) = true := by
    simp only [matchesSymbolRe, pyUpper, Bool.and_eq_true, decide_eq_true_eq,
      List.all_eq_true, List.length_map]
    refine ⟨⟨h1, h2⟩, ?_⟩
    intro c hc
    rw [List.mem_map] at hc
    obtain ⟨c0, hc0, rfl⟩ := hc
    exact (upperCh_fix c0 (h3 c0 hc0)).1
  have hfix : pyUpper (pyUpper v) = pyUpper v := by
    simp only [pyUpper, List.map_map]
    apply List.map_congr_left
    intro c hc
    exact (upperCh_fix c (h3 c hc)).2
  unfold validate_symbol
  rw [if_pos hre, hfix]

theorem validate_expiry_ok (t : PyDate) (v e : PyStr)
    (h : validate_expiry t v = .ok e) : e = v ∧ validate_expiry t e = .ok e := by
  unfold validate_expiry at h ⊢
  rcases hp : parseDateYMD v with _ | d <;> rw [hp] at h <;> simp only at h
  · exact absurd h (by simp)
  · split_ifs at h with hc
    rw [Except.ok.injEq] at h
    subst h
    rw [hp]
    simp [hc]

theorem validate_strike_ok (v k : ℚ) (h : validate_strike v = .ok k) :
    k = round2 v ∧ ¬(v ≤ 0) ∧ ¬(v > 10000) := by
  unfold validate_strike at h
  split_ifs at h with h1 h2
  rw [Except.ok.injEq] at h
  exact ⟨h.symm, h1, h2⟩

theorem validate_strike_idem (v k : ℚ) (h : validate_strike v = .ok k)
    (hpos : 0 < k) : validate_strike k = .ok k := by
  obtain ⟨he, h1, h2⟩ := validate_strike_ok v k h
  unfold validate_strike
  rw [if_neg (by linarith), if_neg ?hub]
  case hub =>
    push_neg at h2 ⊢
    subst he
    exact round2_le_intCast v 10000 (by exact_mod_cast h2)
  subst he
  rw [round2_idem]

theorem validate_premium_ok (v p : ℚ) (h : validate_premium v = .ok p) :
    p = round2 v ∧ ¬(v ≤ 0) ∧ ¬(v > 1000) := by
  unfold validate_premium at h
  split_ifs at h with h1 h2
  rw [Except.ok.injEq] at h
  exact ⟨h.symm, h1, h2⟩

theorem validate_premium_idem (v p : ℚ) (h : validate_premium v = .ok p)
    (hpos : 0 < p) : validate_premium p = .ok p := by
  obtain ⟨he, h1, h2⟩ := validate_premium_ok v p h
  unfold validate_premium
  rw [if_neg (by linarith), if_neg ?hub]
  case hub =>
    push_neg at h2 ⊢
    subst he
    exact round2_le_intCast v 1000 (by exact_mod_cast h2)
  subst he
  rw [round2_idem]

theorem validate_quantity_idem (v : Option Int) (q : Int)
    (h : validate_quantity v = .ok q) : validate_quantity (some q) = .ok q := by
  rcases v with _ | n
  · simp only [validate_quantity, Except.ok.injEq] at h
    subst h
    simp [validate_quantity]
  · simp only [validate_quantity] at h
    split_ifs at h with hc
    rw [Except.ok.injEq] at h
    subst h
    simp [validate_quantity, hc]

theorem validateWebhookSignal_ok_parts (today : PyDate) (r : RawSignal)
    (sig : WebhookSignal) (h : validateWebhookSignal today r = .ok sig) :
    validate_action r.action = .ok sig.action ∧
    validate_symbol r.symbol = .ok sig.symbol ∧
    validate_strike r.strike = .ok sig.strike ∧
    validate_expiry today r.expiry = .ok sig.expiry ∧
    validate_premium r.premium = .ok sig.premium ∧
    validate_quantity r.quantity = .ok sig.quantity := by
  unfold validateWebhookSignal at h
  rcases ha : validate_action r.action with e | a <;> rw [ha] at h <;> simp only at h
  · exact absurd h (by simp)
  rcases hs : validate_symbol r.symbol with e | s <;> rw [hs] at h <;> simp only at h
  · exact absurd h (by simp)
  rcases hk : validate_strike r.strike with e | k <;> rw [hk] at h <;> simp only at h
  · exact absurd h (by simp)
  rcases hx : validate_expiry today r.expiry with e | ex <;> rw [hx] at h <;> simp only at h
  · exact absurd h (by simp)
  rcases hp : validate_premium r.premium with e | p <;> rw [hp] at h <;> simp only at h
  · exact absurd h (by simp)
  rcases hq : validate_quantity r.quantity with e | q <;> rw [hq] at h <;> simp only at h
  · exact absurd h (by simp)
  rw [Except.ok.injEq] at h
  subst h
  exact ⟨rfl, rfl, rfl, rfl, rfl, rfl⟩

theorem validateWebhookSignal_eq_ok (today : PyDate) (r : RawSignal)
    (a s : PyStr) (k : ℚ) (ex : PyStr) (p : ℚ) (q : Int)
    (ha : validate_action r.action = .ok a)
    (hs : validate_symbol r.symbol = .ok s)
    (hk : validate_strike r.strike = .ok k)
    (hx : validate_expiry today r.expiry = .ok ex)
    (hp : validate_premium r.premium = .ok p)
    (hq : validate_quantity r.quantity = .ok q) :
    validateWebhookSignal today r = .ok ⟨a, s, k, ex, p, q⟩ := by
  unfold validateWebhookSignal
  rw [ha, hs, hk, hx, hp, hq]

theorem weekday_decomp (y m d : Nat) :
    weekday y m d = (daysBeforeYear y + daysBeforeMonth y m + 6 + d) % 7 := by
  unfold weekday toOrdinal
  ring_nf

theorem exists_friday (y m : Nat) :
    ∃ d ∈ List.range' 15 7, weekday y m d = 4 := by
  refine ⟨15 + (11 - (daysBeforeYear y + daysBeforeMonth y m + 6 + 15) % 7) % 7, ?_, ?_⟩
  · rw [List.mem_range'_1]
    omega
  · rw [weekday_decomp]
    omega

theorem find?_friday_isSome (y m : Nat) :
    ((List.range' 15 7).find? (fun d => weekday y m d == 4)).isSome := by
  obtain ⟨d, hd, hw⟩ := exists_friday y m
  rcases hf : (List.range' 15 7).find? (fun d => weekday y m d == 4) with _ | e
  · rw [List.find?_eq_none] at hf
    exact absurd (by simpa using hw) (by simpa using hf d hd)
  · rfl

theorem isSomeMapEq {α β : Type} (f : α → β) (o : Option α) :
    (Option.map f o).isSome = o.isSome := by
  cases o <;> rfl

theorem next_expiry_total (t : PyDate) : (next_expiry t).isSome := by
  unfold next_expiry
  dsimp only
  rw [isSomeMapEq]
  apply find?_friday_isSome

/-- Claim C3: a raw payload that fails validation is rejected before
persistence: the pipeline returns the rejection and the record store is
unchanged, so invalid input never appears in the audit trail. -/
theorem C3_reject_before_persist (today : PyDate) (hasClient : Bool)
    (call : BrokerCall) (raw : RawSignal) (db : List TradingSignal) (e : VErr)
    (h : validateWebhookSignal today raw = .error e) :
    process_webhook today hasClient call raw db = (.unprocessable e, db) := by
  unfold process_webhook
  rw [h]

/-- Witness for C3 at a payload whose symbol contains a digit. -/
theorem C3_reject_before_persist_witness :
    validateWebhookSignal ⟨2025, 1, 1⟩
      ⟨strLit (r"sell_put"), strLit (r"AAPL1"), 180, strLit (r"2026-01-16"), 3/2, some 1⟩ =
      .error .InvalidSymbol ∧
    process_webhook ⟨2025, 1, 1⟩ true (.returns ⟨none, none⟩)
      ⟨strLit (r"sell_put"), strLit (r"AAPL1"), 180, strLit (r"2026-01-16"), 3/2, some 1⟩ [] =
      (.unprocessable .InvalidSymbol, []) :=
  ⟨rfl, C3_reject_before_persist ⟨2025, 1, 1⟩ true (.returns ⟨none, none⟩)
    ⟨strLit (r"sell_put"), strLit (r"AAPL1"), 180, strLit (r"2026-01-16"), 3/2, some 1⟩ []
    .InvalidSymbol rfl⟩

/-- Claim C10: next_expiry is total: the day range 15 to 21 of the following
month always contains a Friday, so the selection never fails. -/
theorem C10_next_expiry_total (t : PyDate) : (next_expiry t).isSome :=
  next_expiry_total t

/-- Claim C7: next_expiry lands in the following calendar month (December
rolls to January of the next year), on a day in 15 to 21 that is a Friday. -/
theorem C7_next_expiry_third_friday (t : PyDate) (h1 : 1 ≤ t.month)
    (h2 : t.month ≤ 12) :
    ∃ e, next_expiry t = some e ∧
      (t.month < 12 → e.year = t.year ∧ e.month = t.month + 1) ∧
      (t.month = 12 → e.year = t.year + 1 ∧ e.month = 1) ∧
      15 ≤ e.day ∧ e.day ≤ 21 ∧ weekday e.year e.month e.day = 4 := by
  obtain ⟨d, hf⟩ : ∃ d, (List.range' 15 7).find?
      (fun x => weekday (if t.month < 12 then (t.year, t.month + 1) else (t.year + 1, 1)).1
        (if t.month < 12 then (t.year, t.month + 1) else (t.year + 1, 1)).2 x == 4) = some d :=
    Option.isSome_iff_exists.mp (find?_friday_isSome _ _)
  refine ⟨⟨(if t.month < 12 then (t.year, t.month + 1) else (t.year + 1, 1)).1,
           (if t.month < 12 then (t.year, t.month + 1) else (t.year + 1, 1)).2, d⟩,
    ?_, ?_, ?_, ?_, ?_, ?_⟩
  · unfold next_expiry
    dsimp only
    rw [hf]
    rfl
  · intro hlt
    constructor <;> simp [hlt]
  · intro h12
    have hn : ¬(t.month < 12) := by omega
    constructor <;> simp [hn]
  · have hm := List.mem_of_find?_eq_some hf
    rw [List.mem_range'_1] at hm
    show 15 ≤ d
    omega
  · have hm := List.mem_of_find?_eq_some hf
    rw [List.mem_range'_1] at hm
    show d ≤ 21
    omega
  · have hp := List.find?_some hf
    simpa using hp

/-- Witness for C7 in December: the expiry falls in January of the next year. -/
theorem C7_next_expiry_third_friday_witness :
    1 ≤ (12 : Nat) ∧ (12 : Nat) ≤ 12 ∧
    (∃ e, next_expiry ⟨2025, 12, 1⟩ = some e ∧
      ((12 : Nat) < 12 → e.year = 2025 ∧ e.month = 12 + 1) ∧
      ((12 : Nat) = 12 → e.year = 2025 + 1 ∧ e.month = 1) ∧
      15 ≤ e.day ∧ e.day ≤ 21 ∧ weekday e.year e.month e.day = 4) :=
  ⟨by decide, by decide,
    C7_next_expiry_third_friday ⟨2025, 12, 1⟩ (by decide) (by decide)⟩

/-- Claim C5: the strategy state machine table: cash recommends a put and
advances to waiting_assignment on approval; assigned recommends a call and
advances to cash with no shares held; waiting_assignment recommends nothing
and a run leaves the saved state unchanged. -/
theorem C5_state_machine_table (t : PyDate) (sh : Int) (la : Option WheelSignal) :
    (∃ sig, build_signal t ⟨(r"cash"), sh, la⟩ = some sig ∧
       sig.action = strLit (r"sell_put") ∧
       (applyApproved ⟨(r"cash"), sh, la⟩ sig).state = (r"waiting_assignment")) ∧
    (∃ sig, build_signal t ⟨(r"assigned"), sh, la⟩ = some sig ∧
       sig.action = strLit (r"sell_call") ∧
       (applyApproved ⟨(r"assigned"), sh, la⟩ sig).state = (r"cash") ∧
       (applyApproved ⟨(r"assigned"), sh, la⟩ sig).shares_held = 0) ∧
    (build_signal t ⟨(r"waiting_assignment"), sh, la⟩ = none ∧
     ∀ (approve : Bool) (http : HttpOutcome),
       (runMain t ⟨(r"waiting_assignment"), sh, la⟩ approve http).2 =
         ⟨(r"waiting_assignment"), sh, la⟩) := by
  obtain ⟨e, he⟩ := Option.isSome_iff_exists.mp (next_expiry_total t)
  refine ⟨⟨⟨strLit (r"sell_put"), strLit (r"AAPL"), 180, fmtDate e, 3/2⟩, ?_, rfl, rfl⟩,
          ⟨⟨strLit (r"sell_call"), strLit (r"AAPL"), 190, fmtDate e, 7/4⟩, ?_, rfl, rfl, rfl⟩,
          rfl, fun approve http => rfl⟩
  · unfold build_signal
    dsimp only
    rw [if_pos rfl, he]
    rfl
  · unfold build_signal
    dsimp only
    rw [if_neg (by decide), if_pos rfl, he]
    rfl

/-- Claim C6: after approval the state transition and last_action update are
applied unconditionally: the saved wheel state is the same for every outcome
of the downstream submission, and equals the table transition with
last_action set to the submitted signal. -/
theorem C6_state_advance_outcome_independent (t : PyDate) (st : WheelState)
    (o1 o2 : HttpOutcome) :
    (runMain t st true o1).2 = (runMain t st true o2).2 ∧
    ∀ sig, build_signal t st = some sig →
      (runMain t st true o1).2 = applyApproved st sig ∧
      (applyApproved st sig).last_action = some sig := by
  constructor
  · rcases h : build_signal t st with _ | sig <;> simp [runMain, h]
  · intro sig h
    constructor
    · simp [runMain, h]
    · rfl

theorem validateWebhookSignal_ok_action_cases (today : PyDate) (r : RawSignal)
    (sig : WebhookSignal) (h : validateWebhookSignal today r = .ok sig) :
    sig.action = strLit (r"sell_put") ∨ sig.action = strLit (r"sell_call") :=
  (validate_action_ok _ _ (validateWebhookSignal_ok_parts today r sig h).1).2

/-- Claim C1 (amended): when the brokerage call raises, the committed record
has status error with the exception text as error_message, and the caller
still receives the top-level success envelope. -/
theorem C1_error_record_still_success (today : PyDate) (raw : RawSignal)
    (db : List TradingSignal) (sig : WebhookSignal) (msg : String)
    (h : validateWebhookSignal today raw = .ok sig) :
    ∃ r res, process_webhook today true (.raises msg) raw db =
        (.success (db.length + 1) res, db ++ [r]) ∧
      r.status = (r"error") ∧ r.error_message = some msg := by
  have hmem := validateWebhookSignal_ok_action_cases today raw sig h
  unfold process_webhook
  rw [h]
  dsimp only
  rw [if_neg (not_not_intro hmem)]
  rcases hmem with hA | hB
  · rw [if_pos hA]
    exact ⟨_, _, rfl, rfl, rfl⟩
  · rw [hB, if_neg (by decide)]
    exact ⟨_, _, rfl, rfl, rfl⟩

/-- Counterexample to C1 as stated: a brokerage call that does not raise but
returns a dict carrying an error entry is nevertheless committed as status
processed with no error_message (the source only inspects exceptions), so a
submission that fails by returning an error does not yield an error record. -/
theorem C1_returned_error_marked_processed :
    (⟨some (r"order rejected"), none⟩ : AlpacaResult).error.isSome = true ∧
    ∃ res, process_webhook ⟨2025, 1, 1⟩ true (.returns ⟨some (r"order rejected"), none⟩)
        ⟨strLit (r"sell_put"), strLit (r"AAPL"), 180, strLit (r"2026-01-16"), 3/2, some 1⟩ [] =
        (.success 1 res,
         [⟨1, strLit (r"sell_put"), strLit (r"AAPL"), 180, strLit (r"2026-01-16"), 3/2, 1,
           (r"processed"), none, some (), none⟩]) ∧
      ((r"processed") : String) ≠ (r"error") := by
  refine ⟨rfl, ?_⟩
  have hk : validate_strike 180 = .ok 180 := by
    unfold validate_strike round2 roundHalfEven
    norm_num
  have hp : validate_premium (3/2) = .ok (3/2) := by
    unfold validate_premium round2 roundHalfEven
    norm_num
  have hv : validateWebhookSignal ⟨2025, 1, 1⟩
      ⟨strLit (r"sell_put"), strLit (r"AAPL"), 180, strLit (r"2026-01-16"), 3/2, some 1⟩ =
      .ok ⟨strLit (r"sell_put"), strLit (r"AAPL"), 180, strLit (r"2026-01-16"), 3/2, 1⟩ :=
    validateWebhookSignal_eq_ok _ _ _ _ _ _ _ _ rfl rfl hk rfl hp rfl
  refine ⟨⟨(r"sell_put"), strLit (r"AAPL"), 180, strLit (r"2026-01-16"), 3/2,
    some ⟨some (r"order rejected"), none⟩⟩, ?_, by decide⟩
  unfold process_webhook
  rw [hv]
  rfl

/-- Witness for C1: a concrete valid signal and raising broker call. -/
theorem C1_error_record_still_success_witness :
    validateWebhookSignal ⟨2025, 1, 1⟩
      ⟨strLit (r"Sell_Put"), strLit (r"aapl"), 180, strLit (r"2026-01-16"), 3/2, none⟩ =
      .ok ⟨strLit (r"sell_put"), strLit (r"AAPL"), 180, strLit (r"2026-01-16"), 3/2, 1⟩ ∧
    ∃ r res, process_webhook ⟨2025, 1, 1⟩ true (.raises (r"connection reset"))
        ⟨strLit (r"Sell_Put"), strLit (r"aapl"), 180, strLit (r"2026-01-16"), 3/2, none⟩ [] =
        (.success (List.length ([] : List TradingSignal) + 1) res, [] ++ [r]) ∧
      r.status = (r"error") ∧ r.error_message = some (r"connection reset") := by
  have hk : validate_strike 180 = .ok 180 := by
    unfold validate_strike round2 roundHalfEven
    norm_num
  have hp : validate_premium (3/2) = .ok (3/2) := by
    unfold validate_premium round2 roundHalfEven
    norm_num
  have hv : validateWebhookSignal ⟨2025, 1, 1⟩
      ⟨strLit (r"Sell_Put"), strLit (r"aapl"), 180, strLit (r"2026-01-16"), 3/2, none⟩ =
      .ok ⟨strLit (r"sell_put"), strLit (r"AAPL"), 180, strLit (r"2026-01-16"), 3/2, 1⟩ :=
    validateWebhookSignal_eq_ok _ _ _ _ _ _ _ _ rfl rfl hk rfl hp rfl
  exact ⟨hv, C1_error_record_still_success ⟨2025, 1, 1⟩ _ [] _ (r"connection reset") hv⟩

/-- Claim C4 (amended): with no brokerage capability the committed record has
status no_broker and the fixed message of the source, and the caller still
receives the top-level success envelope. -/
theorem C4_no_broker_record (today : PyDate) (call : BrokerCall)
    (raw : RawSignal) (db : List TradingSignal) (sig : WebhookSignal)
    (h : validateWebhookSignal today raw = .ok sig) :
    ∃ r res, process_webhook today false call raw db =
        (.success (db.length + 1) res, db ++ [r]) ∧
      r.status = (r"no_broker") ∧
      r.error_message = some (r"Alpaca client not available") := by
  have hmem := validateWebhookSignal_ok_action_cases today raw sig h
  unfold process_webhook
  rw [h]
  dsimp only
  rw [if_neg (not_not_intro hmem)]
  rcases hmem with hA | hB
  · rw [if_pos hA]
    exact ⟨_, _, rfl, rfl, rfl⟩
  · rw [hB, if_neg (by decide)]
    exact ⟨_, _, rfl, rfl, rfl⟩

/-- Counterexample to C4 as stated: the no-broker record's error_message is
the fixed source string, which is not the claimed broker-unavailable text. -/
theorem C4_message_differs :
    ∃ res, process_webhook ⟨2025, 1, 1⟩ false (.returns ⟨none, none⟩)
        ⟨strLit (r"sell_put"), strLit (r"AAPL"), 180, strLit (r"2026-01-16"), 3/2, some 1⟩ [] =
        (.success 1 res,
         [⟨1, strLit (r"sell_put"), strLit (r"AAPL"), 180, strLit (r"2026-01-16"), 3/2, 1,
           (r"no_broker"), none, none, some (r"Alpaca client not available")⟩]) ∧
      some ((r"Alpaca client not available") : String) ≠ some ((r"broker unavailable") : String) := by
  have hk : validate_strike 180 = .ok 180 := by
    unfold validate_strike round2 roundHalfEven
    norm_num
  have hp : validate_premium (3/2) = .ok (3/2) := by
    unfold validate_premium round2 roundHalfEven
    norm_num
  have hv : validateWebhookSignal ⟨2025, 1, 1⟩
      ⟨strLit (r"sell_put"), strLit (r"AAPL"), 180, strLit (r"2026-01-16"), 3/2, some 1⟩ =
      .ok ⟨strLit (r"sell_put"), strLit (r"AAPL"), 180, strLit (r"2026-01-16"), 3/2, 1⟩ :=
    validateWebhookSignal_eq_ok _ _ _ _ _ _ _ _ rfl rfl hk rfl hp rfl
  refine ⟨⟨(r"sell_put"), strLit (r"AAPL"), 180, strLit (r"2026-01-16"), 3/2, none⟩,
    ?_, by decide⟩
  unfold process_webhook
  rw [hv]
  rfl

/-- Witness for C4: a concrete valid signal with no brokerage capability. -/
theorem C4_no_broker_record_witness :
    validateWebhookSignal ⟨2025, 1, 1⟩
      ⟨strLit (r"sell_call"), strLit (r"msft"), 420, strLit (r"2026-01-16"), 3/2, none⟩ =
      .ok ⟨strLit (r"sell_call"), strLit (r"MSFT"), 420, strLit (r"2026-01-16"), 3/2, 1⟩ ∧
    ∃ r res, process_webhook ⟨2025, 1, 1⟩ false (.returns ⟨none, none⟩)
        ⟨strLit (r"sell_call"), strLit (r"msft"), 420, strLit (r"2026-01-16"), 3/2, none⟩ [] =
        (.success (List.length ([] : List TradingSignal) + 1) res, [] ++ [r]) ∧
      r.status = (r"no_broker") ∧
      r.error_message = some (r"Alpaca client not available") := by
  have hk : validate_strike 420 = .ok 420 := by
    unfold validate_strike round2 roundHalfEven
    norm_num
  have hp : validate_premium (3/2) = .ok (3/2) := by
    unfold validate_premium round2 roundHalfEven
    norm_num
  have hv : validateWebhookSignal ⟨2025, 1, 1⟩
      ⟨strLit (r"sell_call"), strLit (r"msft"), 420, strLit (r"2026-01-16"), 3/2, none⟩ =
      .ok ⟨strLit (r"sell_call"), strLit (r"MSFT"), 420, strLit (r"2026-01-16"), 3/2, 1⟩ :=
    validateWebhookSignal_eq_ok _ _ _ _ _ _ _ _ rfl rfl hk rfl hp rfl
  exact ⟨hv, C4_no_broker_record ⟨2025, 1, 1⟩ (.returns ⟨none, none⟩) _ [] _ hv⟩

theorem digitsVal_strikeDigits (n : Nat) (h : n < 100000000) :
    digitsVal (strikeDigits n) = n := by
  unfold digitsVal strikeDigits
  simp only [List.foldl]
  omega

/-- Claim C2: the instrument id is the symbol, the two-digit year, month and
day, the right code, and the strike times 1000 zero-padded to eight digits;
the worked example gives the exact id, and for every strike up to 10000 the
strike field is exactly eight decimal digits reading back as the rounded
strike in thousandths. -/
theorem C2_occ_encoding :
    encodeOption (r"AAPL") ⟨2024, 7, 19⟩ .P 180 = .ok (r"AAPL240719P00180000") ∧
    ∀ s : ℚ, 0 < s → s ≤ 10000 →
      0 ≤ strikeMilli s ∧ strikeMilli s ≤ 10000000 ∧
      (strikeDigits (strikeMilli s).toNat).length = 8 ∧
      (∀ d ∈ strikeDigits (strikeMilli s).toNat, d < 10) ∧
      digitsVal (strikeDigits (strikeMilli s).toNat) = (strikeMilli s).toNat := by
  constructor
  · have hm : strikeMilli 180 = 180000 := by
      unfold strikeMilli roundHalfEven
      norm_num
    unfold encodeOption
    dsimp only
    rw [hm, if_neg (by decide)]
    rfl
  · intro s h0 h1
    have hnn : 0 ≤ strikeMilli s := roundHalfEven_nonneg _ (by positivity)
    have hub : strikeMilli s ≤ 10000000 := by
      apply roundHalfEven_le_intCast
      push_cast
      linarith
    refine ⟨hnn, hub, rfl, ?_, ?_⟩
    · intro d hd
      simp only [strikeDigits, List.mem_cons, List.not_mem_nil, or_false] at hd
      rcases hd with h | h | h | h | h | h | h | h <;> subst h <;> omega
    · exact digitsVal_strikeDigits _ (by omega)

/-- Witness for C2 at strike 180. -/
theorem C2_occ_encoding_witness :
    0 < (180 : ℚ) ∧ (180 : ℚ) ≤ 10000 ∧
    (0 ≤ strikeMilli 180 ∧ strikeMilli 180 ≤ 10000000 ∧
     (strikeDigits (strikeMilli 180).toNat).length = 8 ∧
     (∀ d ∈ strikeDigits (strikeMilli 180).toNat, d < 10) ∧
     digitsVal (strikeDigits (strikeMilli 180).toNat) = (strikeMilli 180).toNat) :=
  ⟨by norm_num, by norm_num, C2_occ_encoding.2 180 (by norm_num) (by norm_num)⟩

/-- Claim C8: premium 1000.01 is rejected as InvalidPremium while an
otherwise-identical signal with premium 1000.00 is accepted, stored with the
2-decimal rounded value 1000. -/
theorem C8_premium_bound_inclusive :
    validateWebhookSignal ⟨2025, 1, 1⟩
      ⟨strLit (r"sell_put"), strLit (r"AAPL"), 180, strLit (r"2026-01-16"),
       100001/100, some 1⟩ = .error .InvalidPremium ∧
    validateWebhookSignal ⟨2025, 1, 1⟩
      ⟨strLit (r"sell_put"), strLit (r"AAPL"), 180, strLit (r"2026-01-16"),
       1000, some 1⟩ =
      .ok ⟨strLit (r"sell_put"), strLit (r"AAPL"), 180, strLit (r"2026-01-16"), 1000, 1⟩ := by
  have hk : validate_strike 180 = .ok 180 := by
    unfold validate_strike round2 roundHalfEven
    norm_num
  constructor
  · have hpe : validate_premium (100001/100) = .error .InvalidPremium := by
      unfold validate_premium
      norm_num
    unfold validateWebhookSignal
    dsimp only
    rw [hk, hpe]
    rfl
  · have hp : validate_premium 1000 = .ok 1000 := by
      unfold validate_premium round2 roundHalfEven
      norm_num
    exact validateWebhookSignal_eq_ok _ _ _ _ _ _ _ _ rfl rfl hk rfl hp rfl

/-- Claim C9 (amended): validation normalization is idempotent whenever the
rounded strike and premium stay positive: re-validating the raw form of a
validated signal yields the same signal. -/
theorem C9_validation_idempotent (today : PyDate) (raw : RawSignal)
    (sig : WebhookSignal) (h : validateWebhookSignal today raw = .ok sig)
    (hks : 0 < sig.strike) (hps : 0 < sig.premium) :
    validateWebhookSignal today (rawForm sig) = .ok sig := by
  obtain ⟨ha, hs, hk, hx, hp, hq⟩ := validateWebhookSignal_ok_parts today raw sig h
  have h1 := validate_action_idem _ _ ha
  have h2 := validate_symbol_idem _ _ hs
  have h3 := validate_strike_idem _ _ hk hks
  have h4 := (validate_expiry_ok _ _ _ hx).2
  have h5 := validate_premium_idem _ _ hp hps
  have h6 := validate_quantity_idem _ _ hq
  exact validateWebhookSignal_eq_ok today (rawForm sig) sig.action sig.symbol
    sig.strike sig.expiry sig.premium sig.quantity h1 h2 h3 h4 h5 h6

/-- Counterexample to C9 as stated: a strike of one thousandth is valid, but
rounds to 0, so re-validating the normalized output is rejected as
InvalidStrike instead of reproducing the first result. -/
theorem C9_small_strike_not_idempotent :
    validateWebhookSignal ⟨2025, 1, 1⟩
      ⟨strLit (r"sell_put"), strLit (r"AAPL"), 1/1000, strLit (r"2026-01-16"), 3/2, some 1⟩ =
      .ok ⟨strLit (r"sell_put"), strLit (r"AAPL"), 0, strLit (r"2026-01-16"), 3/2, 1⟩ ∧
    validateWebhookSignal ⟨2025, 1, 1⟩
      (rawForm ⟨strLit (r"sell_put"), strLit (r"AAPL"), 0, strLit (r"2026-01-16"), 3/2, 1⟩) =
      .error .InvalidStrike := by
  constructor
  · have hk : validate_strike (1/1000) = .ok 0 := by
      unfold validate_strike round2 roundHalfEven
      norm_num
    have hp : validate_premium (3/2) = .ok (3/2) := by
      unfold validate_premium round2 roundHalfEven
      norm_num
    exact validateWebhookSignal_eq_ok _ _ _ _ _ _ _ _ rfl rfl hk rfl hp rfl
  · have hk0 : validate_strike 0 = .error .InvalidStrike := by
      unfold validate_strike
      norm_num
    unfold validateWebhookSignal
    dsimp only [rawForm]
    rw [hk0]
    rfl

/-- Witness for C9 at a mixed-case payload with ample strike and premium. -/
theorem C9_validation_idempotent_witness :
    validateWebhookSignal ⟨2025, 1, 1⟩
      ⟨strLit (r"SELL_CALL"), strLit (r"Tsla"), 250, strLit (r"2026-01-16"), 3/2, some 2⟩ =
      .ok ⟨strLit (r"sell_call"), strLit (r"TSLA"), 250, strLit (r"2026-01-16"), 3/2, 2⟩ ∧
    validateWebhookSignal ⟨2025, 1, 1⟩
      (rawForm ⟨strLit (r"sell_call"), strLit (r"TSLA"), 250, strLit (r"2026-01-16"), 3/2, 2⟩) =
      .ok ⟨strLit (r"sell_call"), strLit (r"TSLA"), 250, strLit (r"2026-01-16"), 3/2, 2⟩ := by
  have hk : validate_strike 250 = .ok 250 := by
    unfold validate_strike round2 roundHalfEven
    norm_num
  have hp : validate_premium (3/2) = .ok (3/2) := by
    unfold validate_premium round2 roundHalfEven
    norm_num
  have hv : validateWebhookSignal ⟨2025, 1, 1⟩
      ⟨strLit (r"SELL_CALL"), strLit (r"Tsla"), 250, strLit (r"2026-01-16"), 3/2, some 2⟩ =
      .ok ⟨strLit (r"sell_call"), strLit (r"TSLA"), 250, strLit (r"2026-01-16"), 3/2, 2⟩ :=
    validateWebhookSignal_eq_ok _ _ _ _ _ _ _ _ rfl rfl hk rfl hp rfl
  exact ⟨hv, C9_validation_idempotent ⟨2025, 1, 1⟩ _ _ hv (by norm_num) (by norm_num)⟩

/-- Witness for C6: a concrete cash-state run whose saved state is the same
under a raising submission and a 200 response. -/
theorem C6_state_advance_outcome_independent_witness :
    build_signal ⟨2025, 10, 12⟩ ⟨(r"cash"), 0, none⟩ =
      some ⟨strLit (r"sell_put"), strLit (r"AAPL"), 180, fmtDate ⟨2025, 11, 21⟩, 3/2⟩ ∧
    ((runMain ⟨2025, 10, 12⟩ ⟨(r"cash"), 0, none⟩ true (.raises (r"socket closed"))).2 =
       applyApproved ⟨(r"cash"), 0, none⟩
         ⟨strLit (r"sell_put"), strLit (r"AAPL"), 180, fmtDate ⟨2025, 11, 21⟩, 3/2⟩ ∧
     (applyApproved ⟨(r"cash"), 0, none⟩
         ⟨strLit (r"sell_put"), strLit (r"AAPL"), 180, fmtDate ⟨2025, 11, 21⟩, 3/2⟩).last_action =
       some ⟨strLit (r"sell_put"), strLit (r"AAPL"), 180, fmtDate ⟨2025, 11, 21⟩, 3/2⟩) :=
  ⟨rfl, (C6_state_advance_outcome_independent ⟨2025, 10, 12⟩ ⟨(r"cash"), 0, none⟩
      (.raises (r"socket closed")) (.responds 200 (r"accepted"))).2
    ⟨strLit (r"sell_put"), strLit (r"AAPL"), 180, fmtDate ⟨2025, 11, 21⟩, 3/2⟩ rfl⟩
